import Mathlib

/-!
Shallow embedding of the mandala generator core of this repository
(`SeededRandom`, `MandalaGenerator` and the difficulty-to-primitive tables),
together with proofs of the specification claims about it.

Modelling conventions:
* JavaScript numbers are modelled as exact rationals `ℚ`.  The transcendental
  functions `Math.cos`, `Math.sin` and the constants `Math.PI`, `Math.sqrt(3)`
  are abstract parameters bundled in a `RealOps` record, so every theorem
  below holds for every interpretation of them, in particular the real one.
  No branch of the generator compares trigonometric values, so the control
  flow never depends on this parameter.
* The JavaScript 32-bit signed integer coercion (`hash & hash`, and the
  result of `<<`) is `toInt32`.
* Out-of-bounds array access, which yields `undefined` in JavaScript, is
  modelled by `Option` (`none` = `undefined`); interpolating `undefined`
  into an SVG attribute string yields the literal text `"undefined"`
  (`interpColor`).
* The SVG documents are modelled structurally as lists of shape nodes
  (`SvgElem`).  The outline derivation of the source,
  a global replace of every `fill` attribute by `fill="none"` followed by a
  replace of every `stroke="#222"` by `stroke="#000"`, acts on each node by
  replacing its fill with `"none"` and recoloring a `"#222"` stroke to
  `"#000"` (`outlineSvgOf`).
* Region boundary strings are modelled as lists of SVG path commands
  (`PathCmd`), built exactly as the source builds its `path`/`d` strings.
-/

namespace Mandala

/-- JavaScript `ToInt32`: reduce an integer to the 32-bit signed range. -/
def toInt32 (n : ℤ) : ℤ := (n + 2 ^ 31) % 2 ^ 32 - 2 ^ 31

/-- One iteration of `SeededRandom.hashCode`:
`hash = ((hash << 5) - hash) + char; hash = hash & hash`. -/
def hashStep (hash c : ℤ) : ℤ := toInt32 (toInt32 (hash * 32) - hash + c)

/-- The UTF code units of the seed string (`charCodeAt`); on the basic
multilingual plane these are exactly the characters' code points. -/
def charCodes (s : String) : List ℤ := s.data.map (fun c => (c.toNat : ℤ))

/-- `SeededRandom.hashCode`: fold `hashStep` over the characters, then
`Math.abs`. -/
def hashCode (s : String) : ℤ := |List.foldl hashStep 0 (charCodes s)|

/-- `SeededRandom.random`:
`this.seed = (this.seed * 9301 + 49297) % 233280; return this.seed / 233280`.
Returns the value and the updated state. -/
def random (st : ℤ) : ℚ × ℤ :=
  let st2 := (st * 9301 + 49297) % 233280
  (((st2 : ℤ) : ℚ) / 233280, st2)

/-- `SeededRandom.randomInt`:
`Math.floor(this.random() * (max - min + 1)) + min`. -/
def randomInt (mn mx : ℤ) (st : ℤ) : ℤ × ℤ :=
  let rq := random st
  (⌊rq.1 * ((mx : ℚ) - (mn : ℚ) + 1)⌋ + mn, rq.2)

/-- JavaScript array indexing with an integer index: out of bounds
(including negative) yields `undefined` (`none`). -/
def jsGetInt {α : Type} (l : List α) (i : ℤ) : Option α :=
  if 0 ≤ i then l[i.toNat]? else none

/-- `SeededRandom.choice`: `array[this.randomInt(0, array.length - 1)]`. -/
def choice {α : Type} (l : List α) (st : ℤ) : Option α × ℤ :=
  let iq := randomInt 0 ((l.length : ℤ) - 1) st
  (jsGetInt l iq.1, iq.2)

/-- JavaScript array indexing with a natural index (`palette[i]`,
`palette[i % palette.length]`): out of bounds yields `undefined`.  For an
empty palette the source index `i % palette.length` is `NaN` and the access
yields `undefined`, which this total model also returns. -/
def jsIdx {α : Type} (l : List α) (i : ℕ) : Option α := l[i]?

/-- The difficulty tier of the settings. -/
inductive Difficulty
  | beginner
  | intermediate
  | advanced
deriving DecidableEq, Repr

/-- The `MandalaSettings` record of the source. -/
structure MandalaSettings where
  difficulty : Difficulty
  colorCount : ℤ
  palette : List String
  radialSlices : ℤ
  rings : ℤ
  shapeComplexity : ℤ
  seed : String
  canvasSize : ℚ

/-- Abstract interpretations of the mathematical library functions used by
the pattern generators. -/
structure RealOps where
  cos : ℚ → ℚ
  sin : ℚ → ℚ
  pi : ℚ
  sqrt3 : ℚ

/-- One SVG path command, as written into the `path`/`d` strings. -/
inductive PathCmd
  | move (x y : ℚ)
  | line (x y : ℚ)
  | arc (rx ry rot : ℚ) (largeArc sweep : ℤ) (x y : ℚ)
  | close
deriving DecidableEq, Repr

/-- The `RegionSpec` record of the source; `color` is `Option` because the
source stores `palette[...]`, which is `undefined` on an empty palette. -/
structure RegionSpec where
  id : String
  color : Option String
  path : List PathCmd
deriving DecidableEq, Repr

/-- The geometric payload of one rendered SVG shape node. -/
inductive Shape
  | circle (cx cy r : ℚ)
  | rect (x y w h : ℚ)
  | polygon (pts : List (ℚ × ℚ))
  | path (d : List PathCmd)
deriving DecidableEq, Repr

/-- One shape node of the SVG document, with its styling attributes. -/
structure SvgElem where
  id : String
  shape : Shape
  fill : String
  stroke : String
  strokeWidth : ℚ
deriving DecidableEq, Repr

/-- The SVG document: canvas size plus the ordered shape nodes. -/
structure Svg where
  size : ℚ
  elems : List SvgElem
deriving DecidableEq, Repr

/-- The record returned by `MandalaGenerator.generate`. -/
structure GenResult where
  regions : List RegionSpec
  colored : Svg
  outline : Svg
deriving DecidableEq, Repr

/-- The string interpolated into `fill="${color}"`: the color itself, or the
text `"undefined"` when the lookup was out of bounds. -/
def interpColor : Option String → String
  | some c => c
  | none => "undefined"

/-- A region id string `region-${n}`. -/
def mkId (n : ℕ) : String := "region-" ++ toString n

/-- The path of a full circle of radius `r` about `(c, c)`, as emitted by
every circular region of the source:
`M ${c-r} ${c} A ${r} ${r} 0 1 1 ${c+r} ${c} A ${r} ${r} 0 1 1 ${c-r} ${c} Z`. -/
def circlePath (c r : ℚ) : List PathCmd :=
  [.move (c - r) c, .arc r r 0 1 1 (c + r) c, .arc r r 0 1 1 (c - r) c, .close]

/-- The path of an axis-aligned square with half side `half` about `(c, c)`:
`M ${c-h} ${c-h} L ${c+h} ${c-h} L ${c+h} ${c+h} L ${c-h} ${c+h} Z`. -/
def squarePath (c half : ℚ) : List PathCmd :=
  [.move (c - half) (c - half), .line (c + half) (c - half),
   .line (c + half) (c + half), .line (c - half) (c + half), .close]

/-- The star path loop of `generateStarPattern` (and of the star layers of
`generateLayeredMandala`, which uses `numPoints = 8`): alternate between
`outerR` and `innerR` at angles `i*π/numPoints - π/2`, `M` first, `L` after,
then `Z`. -/
def starPathCmds (ops : RealOps) (center outerR innerR : ℚ) (numPoints : ℕ) :
    List PathCmd :=
  ((List.range (numPoints * 2)).map fun (i : ℕ) =>
    let angle := (i : ℚ) * ops.pi / (numPoints : ℚ)
    let radius := if i % 2 = 0 then outerR else innerR
    let x := center + radius * ops.cos (angle - ops.pi / 2)
    let y := center + radius * ops.sin (angle - ops.pi / 2)
    if i = 0 then PathCmd.move x y else PathCmd.line x y) ++ [PathCmd.close]

/-- The hexagon path loop of `generateHexagonCenter`: six vertices at angles
`i*π/3`, `M` first, `L` after, then `Z`. -/
def hexPathCmds (ops : RealOps) (center hexRadius : ℚ) : List PathCmd :=
  ((List.range 6).map fun (i : ℕ) =>
    let angle := (i : ℚ) * ops.pi / 3
    let x := center + hexRadius * ops.cos angle
    let y := center + hexRadius * ops.sin angle
    if i = 0 then PathCmd.move x y else PathCmd.line x y) ++ [PathCmd.close]

/-- `MandalaGenerator.createEllipsePath`. -/
def createEllipsePath (ops : RealOps) (cx cy rx ry rotation : ℚ) :
    List PathCmd :=
  let c := ops.cos rotation
  let s := ops.sin rotation
  let x1 := cx + rx * c
  let y1 := cy + rx * s
  let x2 := cx - rx * c
  let y2 := cy - rx * s
  let deg := rotation * 180 / ops.pi
  [.move x1 y1, .arc rx ry deg 1 1 x2 y2, .arc rx ry deg 1 1 x1 y1, .close]

/-- `MandalaGenerator.generateConcentricCircles`.  Returns the regions and
shape nodes it pushes plus the final RNG state. -/
def generateConcentricCircles (_ops : RealOps) (dif : Difficulty)
    (center _size : ℚ) (palette : List String) (startId : ℕ) (st : ℤ) :
    (List RegionSpec × List SvgElem) × ℤ :=
  let nst : ℤ × ℤ :=
    match dif with
    | .beginner => ((2 : ℤ), st)
    | .intermediate => randomInt 2 3 st
    | .advanced => randomInt 3 4 st
  let numCircles := nst.1
  let maxRadius := center * 0.8
  let n := numCircles.toNat
  let mainR := (List.range n).map fun (i : ℕ) =>
    let radius := maxRadius * (1 - (i : ℚ) / (numCircles : ℚ))
    ({ id := mkId (startId + i), color := jsIdx palette (i % palette.length),
       path := circlePath center radius } : RegionSpec)
  let mainE := (List.range n).map fun (i : ℕ) =>
    let radius := maxRadius * (1 - (i : ℚ) / (numCircles : ℚ))
    ({ id := mkId (startId + i), shape := .circle center center radius,
       fill := interpColor (jsIdx palette (i % palette.length)),
       stroke := "#222", strokeWidth := 2 } : SvgElem)
  let rq := random nst.2
  let shouldAddCenter : Bool :=
    match dif with
    | .beginner => decide (rq.1 > 0.7)
    | .intermediate => decide (rq.1 > 0.4)
    | .advanced => decide (rq.1 > 0.2)
  if shouldAddCenter && decide (numCircles < (palette.length : ℤ)) then
    let centerSize := maxRadius * 0.2
    let centerColor := jsIdx palette (n % palette.length)
    ((mainR ++ [{ id := mkId (startId + n), color := centerColor,
                  path := circlePath center centerSize }],
      mainE ++ [{ id := mkId (startId + n),
                  shape := .circle center center centerSize,
                  fill := interpColor centerColor, stroke := "#222",
                  strokeWidth := 2 }]), rq.2)
  else ((mainR, mainE), rq.2)

/-- `MandalaGenerator.generateNestedSquares`. -/
def generateNestedSquares (_ops : RealOps) (dif : Difficulty)
    (center _size : ℚ) (palette : List String) (startId : ℕ) (st : ℤ) :
    (List RegionSpec × List SvgElem) × ℤ :=
  let nst : ℤ × ℤ :=
    match dif with
    | .beginner => ((2 : ℤ), st)
    | .intermediate => randomInt 2 3 st
    | .advanced => randomInt 3 4 st
  let numSquares := nst.1
  let maxSize := center * 1.4
  let n := numSquares.toNat
  let mainR := (List.range n).map fun (i : ℕ) =>
    let squareSize := maxSize * (1 - (i : ℚ) / (numSquares : ℚ))
    let half := squareSize / 2
    ({ id := mkId (startId + i), color := jsIdx palette (i % palette.length),
       path := squarePath center half } : RegionSpec)
  let mainE := (List.range n).map fun (i : ℕ) =>
    let squareSize := maxSize * (1 - (i : ℚ) / (numSquares : ℚ))
    let half := squareSize / 2
    ({ id := mkId (startId + i),
       shape := .rect (center - half) (center - half) squareSize squareSize,
       fill := interpColor (jsIdx palette (i % palette.length)),
       stroke := "#222", strokeWidth := 2 } : SvgElem)
  let sc : Bool × ℤ :=
    match dif with
    | .beginner => (false, nst.2)
    | .intermediate => let rq := random nst.2; (decide (rq.1 > 0.5), rq.2)
    | .advanced => let rq := random nst.2; (decide (rq.1 > 0.3), rq.2)
  if sc.1 && decide (numSquares < (palette.length : ℤ)) then
    let centerSize := maxSize * 0.15
    let centerColor := jsIdx palette (n % palette.length)
    ((mainR ++ [{ id := mkId (startId + n), color := centerColor,
                  path := circlePath center centerSize }],
      mainE ++ [{ id := mkId (startId + n),
                  shape := .circle center center centerSize,
                  fill := interpColor centerColor, stroke := "#222",
                  strokeWidth := 2 }]), sc.2)
  else ((mainR, mainE), sc.2)

/-- `MandalaGenerator.generateTriangleInCircle`. -/
def generateTriangleInCircle (ops : RealOps) (dif : Difficulty)
    (center _size : ℚ) (palette : List String) (startId : ℕ) (st : ℤ) :
    (List RegionSpec × List SvgElem) × ℤ :=
  let circleRadius := center * 0.8
  let triangleSize := circleRadius * 0.6
  let circleColor := jsIdx palette 0
  let r0 : RegionSpec :=
    { id := mkId startId, color := circleColor,
      path := circlePath center circleRadius }
  let e0 : SvgElem :=
    { id := mkId startId, shape := .circle center center circleRadius,
      fill := interpColor circleColor, stroke := "#222", strokeWidth := 2 }
  let triangleColor := jsIdx palette (1 % palette.length)
  let height := triangleSize * ops.sqrt3 / 2
  let x1 := center
  let y1 := center - height / 2
  let x2 := center - triangleSize / 2
  let y2 := center + height / 2
  let x3 := center + triangleSize / 2
  let y3 := center + height / 2
  let r1 : RegionSpec :=
    { id := mkId (startId + 1), color := triangleColor,
      path := [.move x1 y1, .line x2 y2, .line x3 y3, .close] }
  let e1 : SvgElem :=
    { id := mkId (startId + 1), shape := .polygon [(x1, y1), (x2, y2), (x3, y3)],
      fill := interpColor triangleColor, stroke := "#222", strokeWidth := 2 }
  let sc : Bool × ℤ :=
    match dif with
    | .beginner => (false, st)
    | .intermediate => let rq := random st; (decide (rq.1 > 0.6), rq.2)
    | .advanced => let rq := random st; (decide (rq.1 > 0.4), rq.2)
  if sc.1 && decide (2 < palette.length) then
    let centerRadius := triangleSize * 0.15
    let centerColor := jsIdx palette (2 % palette.length)
    (([r0, r1] ++ [{ id := mkId (startId + 2), color := centerColor,
                     path := circlePath center centerRadius }],
      [e0, e1] ++ [{ id := mkId (startId + 2),
                     shape := .circle center center centerRadius,
                     fill := interpColor centerColor, stroke := "#222",
                     strokeWidth := 2 }]), sc.2)
  else (([r0, r1], [e0, e1]), sc.2)

/-- `MandalaGenerator.generateStarPattern`. -/
def generateStarPattern (ops : RealOps) (dif : Difficulty)
    (center _size : ℚ) (palette : List String) (startId : ℕ) (st : ℤ) :
    (List RegionSpec × List SvgElem) × ℤ :=
  let outerRadius := center * 0.7
  let innerRadius := outerRadius * 0.4
  let np : ℤ × ℤ :=
    match dif with
    | .beginner => ((5 : ℤ), st)
    | .intermediate => randomInt 5 6 st
    | .advanced => randomInt 6 8 st
  let numPoints := np.1
  let sp := starPathCmds ops center outerRadius innerRadius numPoints.toNat
  let starColor := jsIdx palette 0
  let rs0 : List RegionSpec := [{ id := mkId startId, color := starColor, path := sp }]
  let es0 : List SvgElem :=
    [{ id := mkId startId, shape := .path sp, fill := interpColor starColor,
       stroke := "#222", strokeWidth := 2 }]
  let part1 : List RegionSpec × List SvgElem :=
    if 1 < palette.length then
      let centerRadius := innerRadius * (if dif = .advanced then 0.6 else 0.5)
      let centerColor := jsIdx palette (1 % palette.length)
      ([{ id := mkId (startId + 1), color := centerColor,
          path := circlePath center centerRadius }],
       [{ id := mkId (startId + 1), shape := .circle center center centerRadius,
          fill := interpColor centerColor, stroke := "#222", strokeWidth := 2 }])
    else ([], [])
  let part2 : List RegionSpec × List SvgElem :=
    if dif = .advanced ∧ 2 < palette.length then
      let smallRadius := innerRadius * 0.2
      let smallColor := jsIdx palette (2 % palette.length)
      ([{ id := mkId (startId + 2), color := smallColor,
          path := circlePath center smallRadius }],
       [{ id := mkId (startId + 2), shape := .circle center center smallRadius,
          fill := interpColor smallColor, stroke := "#222", strokeWidth := 2 }])
    else ([], [])
  ((rs0 ++ part1.1 ++ part2.1, es0 ++ part1.2 ++ part2.2), np.2)

/-- `MandalaGenerator.generateHexagonCenter`. -/
def generateHexagonCenter (ops : RealOps) (_dif : Difficulty)
    (center _size : ℚ) (palette : List String) (startId : ℕ) (st : ℤ) :
    (List RegionSpec × List SvgElem) × ℤ :=
  let hexRadius := center * 0.6
  let bgColor := jsIdx palette 0
  let rq1 := random st
  let bg : RegionSpec × SvgElem :=
    if rq1.1 > 0.5 then
      ({ id := mkId startId, color := bgColor,
         path := circlePath center (hexRadius * 1.2) },
       { id := mkId startId, shape := .circle center center (hexRadius * 1.2),
         fill := interpColor bgColor, stroke := "#222", strokeWidth := 2 })
    else
      let bgSize := hexRadius * 1.6
      let half := bgSize / 2
      ({ id := mkId startId, color := bgColor, path := squarePath center half },
       { id := mkId startId,
         shape := .rect (center - half) (center - half) bgSize bgSize,
         fill := interpColor bgColor, stroke := "#222", strokeWidth := 2 })
  let hp := hexPathCmds ops center hexRadius
  let hexColor := jsIdx palette (1 % palette.length)
  let hexR : RegionSpec := { id := mkId (startId + 1), color := hexColor, path := hp }
  let hexE : SvgElem :=
    { id := mkId (startId + 1), shape := .path hp, fill := interpColor hexColor,
      stroke := "#222", strokeWidth := 2 }
  let centerSize := hexRadius * 0.4
  let centerColor := jsIdx palette (2 % palette.length)
  let rq2 := random rq1.2
  let ce : RegionSpec × SvgElem :=
    if rq2.1 > 0.5 then
      let half := centerSize / 2
      ({ id := mkId (startId + 2), color := centerColor,
         path := squarePath center half },
       { id := mkId (startId + 2),
         shape := .rect (center - half) (center - half) centerSize centerSize,
         fill := interpColor centerColor, stroke := "#222", strokeWidth := 2 })
    else
      ({ id := mkId (startId + 2), color := centerColor,
         path := circlePath center (centerSize / 2) },
       { id := mkId (startId + 2), shape := .circle center center (centerSize / 2),
         fill := interpColor centerColor, stroke := "#222", strokeWidth := 2 })
  (([bg.1, hexR, ce.1], [bg.2, hexE, ce.2]), rq2.2)

/-- `MandalaGenerator.generateMixedShapes` (present in the source's switch
but selected by no difficulty tier). -/
def generateMixedShapes (_ops : RealOps) (_dif : Difficulty)
    (center _size : ℚ) (palette : List String) (startId : ℕ) (st : ℤ) :
    (List RegionSpec × List SvgElem) × ℤ :=
  let bgSize := center * 1.4
  let bgColor := jsIdx palette 0
  let half := bgSize / 2
  let bgR : RegionSpec :=
    { id := mkId startId, color := bgColor, path := squarePath center half }
  let bgE : SvgElem :=
    { id := mkId startId,
      shape := .rect (center - half) (center - half) bgSize bgSize,
      fill := interpColor bgColor, stroke := "#222", strokeWidth := 2 }
  let triSize := bgSize * 0.35
  let tri1Color := jsIdx palette (1 % palette.length)
  let tri1X := center - bgSize * 0.25
  let tri1Y := center
  let tri1Path : List PathCmd :=
    [.move (tri1X - triSize / 2) (tri1Y + triSize / 2),
     .line tri1X (tri1Y - triSize / 2),
     .line (tri1X + triSize / 2) (tri1Y + triSize / 2), .close]
  let tri1R : RegionSpec :=
    { id := mkId (startId + 1), color := tri1Color, path := tri1Path }
  let tri1E : SvgElem :=
    { id := mkId (startId + 1), shape := .path tri1Path,
      fill := interpColor tri1Color, stroke := "#222", strokeWidth := 2 }
  let tri2Color := jsIdx palette (2 % palette.length)
  let tri2X := center + bgSize * 0.25
  let tri2Y := center
  let tri2Path : List PathCmd :=
    [.move (tri2X - triSize / 2) (tri2Y - triSize / 2),
     .line (tri2X + triSize / 2) (tri2Y - triSize / 2),
     .line tri2X (tri2Y + triSize / 2), .close]
  let tri2R : RegionSpec :=
    { id := mkId (startId + 2), color := tri2Color, path := tri2Path }
  let tri2E : SvgElem :=
    { id := mkId (startId + 2), shape := .path tri2Path,
      fill := interpColor tri2Color, stroke := "#222", strokeWidth := 2 }
  (([bgR, tri1R, tri2R], [bgE, tri1E, tri2E]), st)

/-- `MandalaGenerator.generateDiamondPattern` (the `default` arm of the
source's switch). -/
def generateDiamondPattern (_ops : RealOps) (_dif : Difficulty)
    (center _size : ℚ) (palette : List String) (startId : ℕ) (st : ℤ) :
    (List RegionSpec × List SvgElem) × ℤ :=
  let radius := center * 0.8
  let bgColor := jsIdx palette 0
  let bgR : RegionSpec :=
    { id := mkId startId, color := bgColor, path := circlePath center radius }
  let bgE : SvgElem :=
    { id := mkId startId, shape := .circle center center radius,
      fill := interpColor bgColor, stroke := "#222", strokeWidth := 2 }
  let diamondSize := radius * 0.6
  let diamondColor := jsIdx palette (1 % palette.length)
  let diamondPath : List PathCmd :=
    [.move center (center - diamondSize / 2),
     .line (center + diamondSize / 2) center,
     .line center (center + diamondSize / 2),
     .line (center - diamondSize / 2) center, .close]
  let diamondR : RegionSpec :=
    { id := mkId (startId + 1), color := diamondColor, path := diamondPath }
  let diamondE : SvgElem :=
    { id := mkId (startId + 1), shape := .path diamondPath,
      fill := interpColor diamondColor, stroke := "#222", strokeWidth := 2 }
  let centerRadius := diamondSize * 0.2
  let centerColor := jsIdx palette (2 % palette.length)
  let centerR : RegionSpec :=
    { id := mkId (startId + 2), color := centerColor,
      path := circlePath center centerRadius }
  let centerE : SvgElem :=
    { id := mkId (startId + 2), shape := .circle center center centerRadius,
      fill := interpColor centerColor, stroke := "#222", strokeWidth := 2 }
  (([bgR, diamondR, centerR], [bgE, diamondE, centerE]), st)

/-- `MandalaGenerator.generatePetalFlower`. -/
def generatePetalFlower (ops : RealOps) (_dif : Difficulty)
    (center _size : ℚ) (palette : List String) (startId : ℕ) (st : ℤ) :
    (List RegionSpec × List SvgElem) × ℤ :=
  let petalCount := min palette.length 8
  let outerRadius := center * 0.8
  let petalPathOf := fun (i : ℕ) =>
    let angle := (i : ℚ) * 2 * ops.pi / (petalCount : ℚ)
    let petalWidth := outerRadius * 0.4
    let petalHeight := outerRadius * 0.8
    let petalCenterX := center + (outerRadius * 0.3) * ops.cos angle
    let petalCenterY := center + (outerRadius * 0.3) * ops.sin angle
    createEllipsePath ops petalCenterX petalCenterY petalWidth petalHeight angle
  let petalsR := (List.range petalCount).map fun (i : ℕ) =>
    ({ id := mkId (startId + i), color := jsIdx palette (i % palette.length),
       path := petalPathOf i } : RegionSpec)
  let petalsE := (List.range petalCount).map fun (i : ℕ) =>
    ({ id := mkId (startId + i), shape := .path (petalPathOf i),
       fill := interpColor (jsIdx palette (i % palette.length)),
       stroke := "#222", strokeWidth := 2 } : SvgElem)
  if petalCount < palette.length then
    let centerRadius := outerRadius * 0.15
    let centerColor := jsIdx palette (petalCount % palette.length)
    ((petalsR ++ [{ id := mkId (startId + petalCount), color := centerColor,
                    path := circlePath center centerRadius }],
      petalsE ++ [{ id := mkId (startId + petalCount),
                    shape := .circle center center centerRadius,
                    fill := interpColor centerColor, stroke := "#222",
                    strokeWidth := 2 }]), st)
  else ((petalsR, petalsE), st)

/-- `MandalaGenerator.generateComplexStar`. -/
def generateComplexStar (ops : RealOps) (_dif : Difficulty)
    (center _size : ℚ) (palette : List String) (startId : ℕ) (st : ℤ) :
    (List RegionSpec × List SvgElem) × ℤ :=
  let starPoints := min palette.length 8
  let outerRadius := center * 0.8
  let innerRadius := outerRadius * 0.4
  let pointPathOf := fun (i : ℕ) =>
    let angle1 := (i : ℚ) * 2 * ops.pi / (starPoints : ℚ) - ops.pi / 2
    let angle2 := ((i : ℚ) + 1) * 2 * ops.pi / (starPoints : ℚ) - ops.pi / 2
    let midAngle := (angle1 + angle2) / 2
    let x1 := center + outerRadius * ops.cos angle1
    let y1 := center + outerRadius * ops.sin angle1
    let x2 := center + innerRadius * ops.cos midAngle
    let y2 := center + innerRadius * ops.sin midAngle
    let x3 := center + outerRadius * ops.cos angle2
    let y3 := center + outerRadius * ops.sin angle2
    ([.move center center, .line x1 y1, .line x2 y2, .line x3 y3, .close] :
      List PathCmd)
  let pointsR := (List.range starPoints).map fun (i : ℕ) =>
    ({ id := mkId (startId + i), color := jsIdx palette (i % palette.length),
       path := pointPathOf i } : RegionSpec)
  let pointsE := (List.range starPoints).map fun (i : ℕ) =>
    ({ id := mkId (startId + i), shape := .path (pointPathOf i),
       fill := interpColor (jsIdx palette (i % palette.length)),
       stroke := "#222", strokeWidth := 2 } : SvgElem)
  if starPoints < palette.length then
    let centerRadius := innerRadius * 0.4
    let centerColor := jsIdx palette (starPoints % palette.length)
    ((pointsR ++ [{ id := mkId (startId + starPoints), color := centerColor,
                    path := circlePath center centerRadius }],
      pointsE ++ [{ id := mkId (startId + starPoints),
                    shape := .circle center center centerRadius,
                    fill := interpColor centerColor, stroke := "#222",
                    strokeWidth := 2 }]), st)
  else ((pointsR, pointsE), st)

/-- `MandalaGenerator.generateLayeredMandala`. -/
def generateLayeredMandala (ops : RealOps) (_dif : Difficulty)
    (center _size : ℚ) (palette : List String) (startId : ℕ) (st : ℤ) :
    (List RegionSpec × List SvgElem) × ℤ :=
  let layers := min palette.length 5
  let maxRadius := center * 0.8
  let radiusOf := fun (layer : ℕ) =>
    maxRadius * (1 - (layer : ℚ) / (layers : ℚ) * 0.7)
  let layersR := (List.range layers).map fun (layer : ℕ) =>
    let radius := radiusOf layer
    if layer % 2 = 0 then
      ({ id := mkId (startId + layer),
         color := jsIdx palette (layer % palette.length),
         path := circlePath center radius } : RegionSpec)
    else
      ({ id := mkId (startId + layer),
         color := jsIdx palette (layer % palette.length),
         path := starPathCmds ops center radius (radius * 0.7) 8 } : RegionSpec)
  let layersE := (List.range layers).map fun (layer : ℕ) =>
    let radius := radiusOf layer
    if layer % 2 = 0 then
      ({ id := mkId (startId + layer), shape := .circle center center radius,
         fill := interpColor (jsIdx palette (layer % palette.length)),
         stroke := "#222", strokeWidth := 2 } : SvgElem)
    else
      ({ id := mkId (startId + layer),
         shape := .path (starPathCmds ops center radius (radius * 0.7) 8),
         fill := interpColor (jsIdx palette (layer % palette.length)),
         stroke := "#222", strokeWidth := 2 } : SvgElem)
  ((layersR, layersE), st)

/-- `MandalaGenerator.generateGeometricFlower`.  The petal loop condition
`i < petalCount - 1 && regionIndex < palette.length` runs exactly
`petalCount - 1` times: when the background was pushed (`palette` nonempty),
`regionIndex = 1 + i < palette.length` holds throughout because
`petalCount - 1 ≤ palette.length - 1`; on an empty palette `petalCount = 0`
and the loop body never runs. -/
def generateGeometricFlower (ops : RealOps) (_dif : Difficulty)
    (center _size : ℚ) (palette : List String) (startId : ℕ) (st : ℤ) :
    (List RegionSpec × List SvgElem) × ℤ :=
  let petalCount := min palette.length 6
  let radius := center * 0.8
  let bg : List RegionSpec × List SvgElem :=
    if 0 < palette.length then
      let bgColor := jsIdx palette (0 % palette.length)
      ([{ id := mkId startId, color := bgColor, path := circlePath center radius }],
       [{ id := mkId startId, shape := .circle center center radius,
          fill := interpColor bgColor, stroke := "#222", strokeWidth := 2 }])
    else ([], [])
  let petalPathOf := fun (i : ℕ) =>
    let angle := (i : ℚ) * 2 * ops.pi / ((petalCount : ℚ) - 1)
    let petalSize := radius * 0.4
    let petalCenterX := center + (radius * 0.5) * ops.cos angle
    let petalCenterY := center + (radius * 0.5) * ops.sin angle
    let c := ops.cos angle
    let s := ops.sin angle
    let halfSize := petalSize / 2
    let x1 := petalCenterX + halfSize * c
    let y1 := petalCenterY + halfSize * s
    let x2 := petalCenterX - halfSize * s
    let y2 := petalCenterY + halfSize * c
    let x3 := petalCenterX - halfSize * c
    let y3 := petalCenterY - halfSize * s
    let x4 := petalCenterX + halfSize * s
    let y4 := petalCenterY - halfSize * c
    ([.move x1 y1, .line x2 y2, .line x3 y3, .line x4 y4, .close] :
      List PathCmd)
  let petalsR := (List.range (petalCount - 1)).map fun (i : ℕ) =>
    ({ id := mkId (startId + (1 + i)),
       color := jsIdx palette ((1 + i) % palette.length),
       path := petalPathOf i } : RegionSpec)
  let petalsE := (List.range (petalCount - 1)).map fun (i : ℕ) =>
    ({ id := mkId (startId + (1 + i)), shape := .path (petalPathOf i),
       fill := interpColor (jsIdx palette ((1 + i) % palette.length)),
       stroke := "#222", strokeWidth := 2 } : SvgElem)
  ((bg.1 ++ petalsR, bg.2 ++ petalsE), st)

/-- The eligible design-pattern identifiers for each difficulty tier
(the three `designTypes` lists of `MandalaGenerator.generate`). -/
def designTypes : Difficulty → List String
  | .beginner => ["concentric_circles", "nested_squares", "triangle_in_circle"]
  | .intermediate =>
      ["concentric_circles", "nested_squares", "triangle_in_circle",
       "star_pattern", "hexagon_center"]
  | .advanced =>
      ["petal_flower", "complex_star", "layered_mandala", "geometric_flower"]

/-- The switch of `MandalaGenerator.generate`: dispatch on the chosen design
type; the `default` arm is `generateDiamondPattern`. -/
def dispatch (ops : RealOps) (dif : Difficulty) (center canvasSize : ℚ)
    (palette : List String) (startId : ℕ) (designType : Option String)
    (st : ℤ) : (List RegionSpec × List SvgElem) × ℤ :=
  if designType = some "concentric_circles" then
    generateConcentricCircles ops dif center canvasSize palette startId st
  else if designType = some "nested_squares" then
    generateNestedSquares ops dif center canvasSize palette startId st
  else if designType = some "triangle_in_circle" then
    generateTriangleInCircle ops dif center canvasSize palette startId st
  else if designType = some "star_pattern" then
    generateStarPattern ops dif center canvasSize palette startId st
  else if designType = some "hexagon_center" then
    generateHexagonCenter ops dif center canvasSize palette startId st
  else if designType = some "petal_flower" then
    generatePetalFlower ops dif center canvasSize palette startId st
  else if designType = some "complex_star" then
    generateComplexStar ops dif center canvasSize palette startId st
  else if designType = some "layered_mandala" then
    generateLayeredMandala ops dif center canvasSize palette startId st
  else if designType = some "geometric_flower" then
    generateGeometricFlower ops dif center canvasSize palette startId st
  else if designType = some "mixed_shapes" then
    generateMixedShapes ops dif center canvasSize palette startId st
  else
    generateDiamondPattern ops dif center canvasSize palette startId st

/-- The region list and shape-node list produced by one run of
`MandalaGenerator.generate`: seed the RNG from `settings.seed`, choose a
design type from the difficulty's list, dispatch. -/
def generateCore (ops : RealOps) (s : MandalaSettings) :
    (List RegionSpec × List SvgElem) × ℤ :=
  let center := s.canvasSize / 2
  let ch := choice (designTypes s.difficulty) (hashCode s.seed)
  dispatch ops s.difficulty center s.canvasSize s.palette 0 ch.1 ch.2

/-- The outline transform of one shape node: the fill attribute becomes
`"none"` and a `"#222"` stroke becomes `"#000"` (the two global replaces of
the source, per node). -/
def outlineElem (e : SvgElem) : SvgElem :=
  { e with fill := "none",
           stroke := if e.stroke = "#222" then "#000" else e.stroke }

/-- The outline document derived from the colored document by transforming
every shape node. -/
def outlineSvgOf (svg : Svg) : Svg :=
  { size := svg.size, elems := svg.elems.map outlineElem }

/-- `MandalaGenerator.generate`: the full result record. -/
def generate (ops : RealOps) (s : MandalaSettings) : GenResult :=
  let core := generateCore ops s
  let colored : Svg := { size := s.canvasSize, elems := core.1.2 }
  { regions := core.1.1, colored := colored, outline := outlineSvgOf colored }

/-! ## Spec-side observers -/

/-- Is a path command a moveto? -/
def isMove : PathCmd → Bool
  | .move _ _ => true
  | _ => false

/-- A path list is explicitly closed in the way every region path of the
source is: it starts with a single `M`, continues with `L`/`A` commands
only, and ends with `Z`. -/
def wellClosed : List PathCmd → Bool
  | .move _ _ :: rest =>
      rest.all (fun c => !(isMove c)) && decide (rest.getLast? = some PathCmd.close)
  | _ => false

/-- The first point of a path (the coordinates of its leading `M`). -/
def firstPoint : List PathCmd → Option (ℚ × ℚ)
  | .move x y :: _ => some (x, y)
  | _ => none

/-- Walk a path tracking the current subpath start and the current point;
`Z` returns the pen to the subpath start. -/
def effEndAux : Option (ℚ × ℚ) → Option (ℚ × ℚ) → List PathCmd → Option (ℚ × ℚ)
  | _, cur, [] => cur
  | _, _, .move x y :: rest => effEndAux (some (x, y)) (some (x, y)) rest
  | start, _, .line x y :: rest => effEndAux start (some (x, y)) rest
  | start, _, .arc _ _ _ _ _ x y :: rest => effEndAux start (some (x, y)) rest
  | start, _, .close :: rest => effEndAux start start rest

/-- The last effective point of a path. -/
def effEnd (p : List PathCmd) : Option (ℚ × ℚ) := effEndAux none none p

/-- The region at absolute draw position `idx` is correct: its id is
`region-idx`, its color is `palette[idx % palette.length]`, and its boundary
is explicitly closed. -/
def RegionOkAt (p : List String) (idx : ℕ) (r : RegionSpec) : Prop :=
  r.id = mkId idx ∧ r.color = jsIdx p (idx % p.length) ∧ wellClosed r.path = true

/-- Every region of `rs` is correct for its draw position, offset by `b`. -/
def RegionsOkFrom (p : List String) (b : ℕ) (rs : List RegionSpec) : Prop :=
  ∀ k (h : k < rs.length), RegionOkAt p (b + k) rs[k]

/-- Every shape node has the neutral stroke. -/
def ElemsOk (es : List SvgElem) : Prop := ∀ e ∈ es, e.stroke = "#222"

/-- The bundle of facts proved about the output of every pattern generator:
one shape node per region, all strokes neutral, regions correct at their
draw positions, at most nine regions, and at least one region whenever the
palette is nonempty. -/
def GoodOut (p : List String) (out : List RegionSpec × List SvgElem) : Prop :=
  out.2.length = out.1.length ∧
  ElemsOk out.2 ∧
  RegionsOkFrom p 0 out.1 ∧
  out.1.length ≤ 9 ∧
  (1 ≤ p.length → 1 ≤ out.1.length)

/-- Concrete interpretation of the mathematical functions used for witness
evaluation (the claims hold for every interpretation). -/
def ops0 : RealOps := { cos := fun _ => 0, sin := fun _ => 0, pi := 0, sqrt3 := 0 }

/-- Concrete settings for witnesses (the app's defaults with seed `"x"`). -/
def s0 : MandalaSettings :=
  { difficulty := .beginner, colorCount := 3,
    palette := ["#E53935", "#1E88E5", "#FDD835"], radialSlices := 6,
    rings := 3, shapeComplexity := 1, seed := "x", canvasSize := 400 }

/-- Settings equal to `s0` on seed, canvas size, difficulty and palette but
different in every other field. -/
def s0var : MandalaSettings :=
  { difficulty := .beginner, colorCount := 5,
    palette := ["#E53935", "#1E88E5", "#FDD835"], radialSlices := 8,
    rings := 4, shapeComplexity := 2, seed := "x", canvasSize := 400 }

/-- Settings violating the spec's preconditions: non-positive canvas size and
an empty palette. -/
def sBad : MandalaSettings :=
  { difficulty := .beginner, colorCount := 0, palette := [],
    radialSlices := 0, rings := 0, shapeComplexity := 0, seed := "x",
    canvasSize := 0 }

/-- The first region generated from `s0` (seed `"x"` selects
`triangle_in_circle`; the first region is the background circle). -/
def r0val : RegionSpec :=
  { id := "region-0", color := some "#E53935", path := circlePath 200 160 }

/-- The outline/colored identity: same node count, same ids and geometry at
every index, outline fills all `"none"` and strokes all `"#000"`, colored
strokes all the neutral `"#222"`. -/
def OutlineMatchesColored (r : GenResult) : Prop :=
  r.outline.elems.length = r.colored.elems.length ∧
  (∀ j : ℕ, (r.outline.elems[j]?).map SvgElem.id =
    (r.colored.elems[j]?).map SvgElem.id) ∧
  (∀ j : ℕ, (r.outline.elems[j]?).map SvgElem.shape =
    (r.colored.elems[j]?).map SvgElem.shape) ∧
  (∀ e ∈ r.outline.elems, e.fill = "none" ∧ e.stroke = "#000") ∧
  (∀ e ∈ r.colored.elems, e.stroke = "#222")


attribute [local semireducible] Rat.ofScientific Rat.mul Rat.inv Rat.add Rat.sub

/-! ## Random source lemmas -/

/-- The updated state of `random` lies in `[0, 233280)`. -/
theorem random_state_bounds (st : ℤ) :
    0 ≤ (random st).2 ∧ (random st).2 < 233280 := by
  unfold random
  refine ⟨Int.emod_nonneg _ (by norm_num), Int.emod_lt_of_pos _ (by norm_num)⟩

/-- The value returned by `random` lies in `[0, 1)`. -/
theorem random_val_bounds (st : ℤ) :
    0 ≤ (random st).1 ∧ (random st).1 < 1 := by
  obtain ⟨h0, h1⟩ := random_state_bounds st
  unfold random at h0 h1 ⊢
  constructor
  · apply div_nonneg _ (by norm_num)
    exact_mod_cast h0
  · rw [div_lt_one (by norm_num)]
    exact_mod_cast h1

/-- `randomInt mn mx` returns a value in `[mn, mx]` when `mn ≤ mx`. -/
theorem randomInt_bounds (mn mx st : ℤ) (h : mn ≤ mx) :
    mn ≤ (randomInt mn mx st).1 ∧ (randomInt mn mx st).1 ≤ mx := by
  obtain ⟨hq0, hq1⟩ := random_val_bounds st
  unfold randomInt
  dsimp only
  have hk : (0 : ℚ) < (mx : ℚ) - (mn : ℚ) + 1 := by
    have : (mn : ℚ) ≤ (mx : ℚ) := by exact_mod_cast h
    linarith
  constructor
  · have : (0 : ℤ) ≤ ⌊(random st).1 * ((mx : ℚ) - (mn : ℚ) + 1)⌋ :=
      Int.floor_nonneg.mpr (mul_nonneg hq0 (le_of_lt hk))
    omega
  · have : ⌊(random st).1 * ((mx : ℚ) - (mn : ℚ) + 1)⌋ < mx - mn + 1 := by
      apply Int.floor_lt.mpr
      have hlt : (random st).1 * ((mx : ℚ) - (mn : ℚ) + 1) < 1 * ((mx : ℚ) - (mn : ℚ) + 1) :=
        mul_lt_mul_of_pos_right hq1 hk
      rw [one_mul] at hlt
      push_cast
      linarith
    omega

/-! ## 32-bit wraparound lemmas -/

/-- `toInt32` only depends on the argument modulo `2^32`. -/
theorem toInt32_congr {a b : ℤ} (h : a % 2 ^ 32 = b % 2 ^ 32) :
    toInt32 a = toInt32 b := by
  unfold toInt32
  omega

/-- `toInt32` is the identity modulo `2^32`. -/
theorem toInt32_emod (a : ℤ) : toInt32 a % 2 ^ 32 = a % 2 ^ 32 := by
  unfold toInt32
  omega

/-- The shift-and-subtract hash step of the source equals the
`hash * 31 + charCode` step of the specification. -/
theorem hashStep_eq_ref (h c : ℤ) : hashStep h c = toInt32 (h * 31 + c) := by
  unfold hashStep
  apply toInt32_congr
  have := toInt32_emod (h * 32)
  omega

/-! ## Closed-contour lemmas -/

/-- Walking a non-`M` suffix that ends in `Z` lands back on the subpath
start. -/
theorem effEndAux_closed (pt : ℚ × ℚ) :
    ∀ (rest : List PathCmd) (cur : Option (ℚ × ℚ)),
      rest.all (fun c => !(isMove c)) = true →
      rest.getLast? = some PathCmd.close →
      effEndAux (some pt) cur rest = some pt := by
  intro rest
  induction rest with
  | nil => intro cur _ hlast; simp at hlast
  | cons c rest2 ih =>
    intro cur hall hlast
    cases rest2 with
    | nil =>
      cases c with
      | move x y => simp [isMove] at hall
      | line x y => simp at hlast
      | arc rx ry rot la sw x y => simp at hlast
      | close => simp [effEndAux]
    | cons d rest3 =>
      have hlast2 : (d :: rest3).getLast? = some PathCmd.close := by
        rwa [List.getLast?_cons_cons] at hlast
      have hall2 : (d :: rest3).all (fun c => !(isMove c)) = true := by
        rw [List.all_cons, Bool.and_eq_true] at hall
        exact hall.2
      cases c with
      | move x y => simp [isMove] at hall
      | line x y => exact ih _ hall2 hlast2
      | arc rx ry rot la sw x y => exact ih _ hall2 hlast2
      | close => exact ih _ hall2 hlast2

/-- A well-closed path has a first point and its last effective point
coincides with it. -/
theorem firstPoint_eq_effEnd_of_wellClosed {p : List PathCmd}
    (h : wellClosed p = true) :
    firstPoint p = effEnd p ∧ firstPoint p ≠ none := by
  match p with
  | [] => simp [wellClosed] at h
  | PathCmd.move x y :: rest =>
    simp only [wellClosed, Bool.and_eq_true, decide_eq_true_eq] at h
    have := effEndAux_closed (x, y) rest (some (x, y)) h.1 h.2
    unfold effEnd effEndAux
    simp [firstPoint, this]
  | PathCmd.line x y :: rest => simp [wellClosed] at h
  | PathCmd.arc rx ry rot la sw x y :: rest => simp [wellClosed] at h
  | PathCmd.close :: rest => simp [wellClosed] at h

/-- A path built as `M`-first loop over `range n` with non-`M` later
commands followed by a final `Z` is well closed. -/
theorem wellClosed_range_map (n : ℕ) (hn : 0 < n) (f : ℕ → PathCmd)
    (h0 : ∃ x y, f 0 = PathCmd.move x y)
    (hi : ∀ i, i ≠ 0 → isMove (f i) = false) :
    wellClosed ((List.range n).map f ++ [PathCmd.close]) = true := by
  obtain ⟨m, rfl⟩ : ∃ m, n = m + 1 := ⟨n - 1, by omega⟩
  rw [List.range_succ_eq_map]
  obtain ⟨x, y, hxy⟩ := h0
  simp only [List.map_cons, hxy, List.cons_append, List.map_map]
  rw [wellClosed]
  apply Bool.and_eq_true_iff.mpr
  constructor
  · rw [List.all_append]
    apply Bool.and_eq_true_iff.mpr
    constructor
    · rw [List.all_eq_true]
      intro c hc
      rw [List.mem_map] at hc
      obtain ⟨j, _, rfl⟩ := hc
      simp only [Function.comp_apply]
      rw [hi (Nat.succ j) (Nat.succ_ne_zero j)]
      rfl
    · rfl
  · rw [decide_eq_true_eq]
    exact List.getLast?_concat _

/-- `circlePath` is well closed. -/
theorem wellClosed_circlePath (c r : ℚ) : wellClosed (circlePath c r) = true := rfl

/-- `squarePath` is well closed. -/
theorem wellClosed_squarePath (c h : ℚ) : wellClosed (squarePath c h) = true := rfl

/-- `hexPathCmds` is well closed. -/
theorem wellClosed_hexPathCmds (ops : RealOps) (c r : ℚ) :
    wellClosed (hexPathCmds ops c r) = true := rfl

/-- `starPathCmds` is well closed for a positive number of points. -/
theorem wellClosed_starPathCmds (ops : RealOps) (c o i : ℚ) (n : ℕ)
    (hn : 0 < n) : wellClosed (starPathCmds ops c o i n) = true := by
  apply wellClosed_range_map _ (by omega)
  · exact ⟨_, _, if_pos rfl⟩
  · intro j hj
    unfold isMove
    rw [if_neg hj]

/-- `createEllipsePath` is well closed. -/
theorem wellClosed_createEllipsePath (ops : RealOps) (cx cy rx ry rot : ℚ) :
    wellClosed (createEllipsePath ops cx cy rx ry rot) = true := rfl

/-! ## Region bookkeeping combinators -/

theorem regionsOkFrom_nil (p : List String) (b : ℕ) : RegionsOkFrom p b [] := by
  intro k h
  simp at h

theorem regionsOkFrom_append {p : List String} {b : ℕ} {rs1 rs2 : List RegionSpec}
    (h1 : RegionsOkFrom p b rs1) (h2 : RegionsOkFrom p (b + rs1.length) rs2) :
    RegionsOkFrom p b (rs1 ++ rs2) := by
  intro k h
  rw [List.length_append] at h
  by_cases hk : k < rs1.length
  · rw [List.getElem_append_left hk]
    exact h1 k hk
  · have hk2 : k - rs1.length < rs2.length := by omega
    rw [List.getElem_append_right (by omega)]
    have := h2 (k - rs1.length) hk2
    have harith : b + rs1.length + (k - rs1.length) = b + k := by omega
    rwa [harith] at this

theorem regionsOkFrom_map_range {p : List String} {b n : ℕ} {f : ℕ → RegionSpec}
    (h : ∀ k, k < n → RegionOkAt p (b + k) (f k)) :
    RegionsOkFrom p b ((List.range n).map f) := by
  intro k hk
  rw [List.length_map, List.length_range] at hk
  simp only [List.getElem_map, List.getElem_range]
  exact h k hk

theorem regionsOkFrom_singleton {p : List String} {b : ℕ} {r : RegionSpec}
    (h : RegionOkAt p b r) : RegionsOkFrom p b [r] := by
  intro k hk
  simp only [List.length_singleton] at hk
  obtain rfl : k = 0 := by omega
  simpa using h

theorem regionsOkFrom_cons {p : List String} {b : ℕ} {r : RegionSpec}
    {rs : List RegionSpec} (h0 : RegionOkAt p b r)
    (h1 : RegionsOkFrom p (b + 1) rs) : RegionsOkFrom p b (r :: rs) := by
  intro k hk
  cases k with
  | zero => simpa using h0
  | succ j =>
    simp only [List.length_cons] at hk
    have := h1 j (by omega)
    have harith : b + 1 + j = b + (j + 1) := by omega
    rw [harith] at this
    simpa using this

theorem elemsOk_nil : ElemsOk [] := by intro e he; simp at he

theorem elemsOk_append {es1 es2 : List SvgElem} (h1 : ElemsOk es1)
    (h2 : ElemsOk es2) : ElemsOk (es1 ++ es2) := by
  intro e he
  rcases List.mem_append.mp he with h | h
  · exact h1 e h
  · exact h2 e h

theorem elemsOk_cons {e0 : SvgElem} {es : List SvgElem} (h0 : e0.stroke = "#222")
    (h1 : ElemsOk es) : ElemsOk (e0 :: es) := by
  intro e he
  rcases List.mem_cons.mp he with rfl | h
  · exact h0
  · exact h1 e h

theorem elemsOk_map_range {n : ℕ} {f : ℕ → SvgElem}
    (h : ∀ k, (f k).stroke = "#222") : ElemsOk ((List.range n).map f) := by
  intro e he
  rw [List.mem_map] at he
  obtain ⟨j, _, rfl⟩ := he
  exact h j


/-! ## Per-generator correctness lemmas -/

theorem goodOut_concentricCircles (ops : RealOps) (dif : Difficulty)
    (center size : ℚ) (palette : List String) (st : ℤ) :
    GoodOut palette ((generateConcentricCircles ops dif center size palette 0 st).1) := by
  have hb23 := randomInt_bounds 2 3 st (by norm_num)
  have hb34 := randomInt_bounds 3 4 st (by norm_num)
  unfold generateConcentricCircles
  cases dif <;> dsimp only <;> split <;>
    refine ⟨by simp, ?_, ?_, ?_, ?_⟩ <;>
    first
    | exact elemsOk_append (elemsOk_map_range fun k => rfl) (elemsOk_cons rfl elemsOk_nil)
    | exact elemsOk_map_range fun k => rfl
    | exact regionsOkFrom_append
        (regionsOkFrom_map_range fun k hk =>
          ⟨rfl, by simp only [Nat.zero_add], wellClosed_circlePath _ _⟩)
        (by simp only [List.length_map, List.length_range]
            exact regionsOkFrom_singleton
              ⟨rfl, by simp only [Nat.zero_add], wellClosed_circlePath _ _⟩)
    | exact regionsOkFrom_map_range fun k hk =>
        ⟨rfl, by simp only [Nat.zero_add], wellClosed_circlePath _ _⟩
    | (simp only [List.length_append, List.length_map, List.length_range,
         List.length_singleton]
       omega)

theorem goodOut_nestedSquares (ops : RealOps) (dif : Difficulty)
    (center size : ℚ) (palette : List String) (st : ℤ) :
    GoodOut palette ((generateNestedSquares ops dif center size palette 0 st).1) := by
  have hb23 := randomInt_bounds 2 3 st (by norm_num)
  have hb34 := randomInt_bounds 3 4 st (by norm_num)
  unfold generateNestedSquares
  cases dif <;> dsimp only <;> split <;>
    refine ⟨by simp, ?_, ?_, ?_, ?_⟩ <;>
    first
    | exact elemsOk_append (elemsOk_map_range fun k => rfl) (elemsOk_cons rfl elemsOk_nil)
    | exact elemsOk_map_range fun k => rfl
    | exact regionsOkFrom_append
        (regionsOkFrom_map_range fun k hk =>
          ⟨rfl, by simp only [Nat.zero_add], wellClosed_squarePath _ _⟩)
        (by simp only [List.length_map, List.length_range]
            exact regionsOkFrom_singleton
              ⟨rfl, by simp only [Nat.zero_add], wellClosed_circlePath _ _⟩)
    | exact regionsOkFrom_map_range fun k hk =>
        ⟨rfl, by simp only [Nat.zero_add], wellClosed_squarePath _ _⟩
    | (simp only [List.length_append, List.length_map, List.length_range,
         List.length_singleton]
       omega)

theorem goodOut_triangleInCircle (ops : RealOps) (dif : Difficulty)
    (center size : ℚ) (palette : List String) (st : ℤ) :
    GoodOut palette ((generateTriangleInCircle ops dif center size palette 0 st).1) := by
  unfold generateTriangleInCircle
  cases dif <;> dsimp only <;> split <;>
    refine ⟨by simp, ?_, ?_, by simp, by intro _; simp⟩ <;>
    first
    | exact elemsOk_cons rfl (elemsOk_cons rfl (elemsOk_cons rfl elemsOk_nil))
    | exact elemsOk_cons rfl (elemsOk_cons rfl elemsOk_nil)
    | exact regionsOkFrom_cons ⟨rfl, by simp only [Nat.zero_mod], wellClosed_circlePath _ _⟩
        (regionsOkFrom_cons ⟨rfl, rfl, rfl⟩
          (regionsOkFrom_cons ⟨rfl, rfl, wellClosed_circlePath _ _⟩ (regionsOkFrom_nil _ _)))
    | exact regionsOkFrom_cons ⟨rfl, by simp only [Nat.zero_mod], wellClosed_circlePath _ _⟩
        (regionsOkFrom_cons ⟨rfl, rfl, rfl⟩ (regionsOkFrom_nil _ _))

theorem goodOut_starPattern (ops : RealOps) (dif : Difficulty)
    (center size : ℚ) (palette : List String) (st : ℤ) :
    GoodOut palette ((generateStarPattern ops dif center size palette 0 st).1) := by
  have hb56 := randomInt_bounds 5 6 st (by norm_num)
  have hb68 := randomInt_bounds 6 8 st (by norm_num)
  unfold generateStarPattern
  cases dif <;> dsimp only <;>
    [(simp only [if_neg (show ¬(Difficulty.beginner = Difficulty.advanced ∧
        2 < palette.length) from by simp),
      if_neg (show ¬(Difficulty.beginner = Difficulty.advanced) from by simp)]);
     (simp only [if_neg (show ¬(Difficulty.intermediate = Difficulty.advanced ∧
        2 < palette.length) from by simp),
      if_neg (show ¬(Difficulty.intermediate = Difficulty.advanced) from by simp)]);
     (simp only [if_pos (show Difficulty.advanced = Difficulty.advanced from rfl)])] <;>
    split_ifs <;>
    refine ⟨by simp, ?_, ?_, by simp, by intro _; simp⟩ <;>
    first
    | (exact absurd (by omega : 1 < palette.length) (by assumption))
    | exact elemsOk_append (elemsOk_append (elemsOk_cons rfl elemsOk_nil)
        (elemsOk_cons rfl elemsOk_nil)) (elemsOk_cons rfl elemsOk_nil)
    | exact elemsOk_append (elemsOk_append (elemsOk_cons rfl elemsOk_nil)
        (elemsOk_cons rfl elemsOk_nil)) elemsOk_nil
    | exact elemsOk_append (elemsOk_append (elemsOk_cons rfl elemsOk_nil)
        elemsOk_nil) (elemsOk_cons rfl elemsOk_nil)
    | exact elemsOk_append (elemsOk_append (elemsOk_cons rfl elemsOk_nil)
        elemsOk_nil) elemsOk_nil
    | exact regionsOkFrom_append
        (regionsOkFrom_append
          (regionsOkFrom_singleton ⟨rfl, by simp only [Nat.zero_mod],
            wellClosed_starPathCmds _ _ _ _ _ (by omega)⟩)
          (regionsOkFrom_singleton ⟨rfl, rfl, wellClosed_circlePath _ _⟩))
        (by simp only [List.length_append, List.length_singleton]
            exact regionsOkFrom_singleton ⟨rfl, rfl, wellClosed_circlePath _ _⟩)
    | exact regionsOkFrom_append
        (regionsOkFrom_append
          (regionsOkFrom_singleton ⟨rfl, by simp only [Nat.zero_mod],
            wellClosed_starPathCmds _ _ _ _ _ (by omega)⟩)
          (regionsOkFrom_singleton ⟨rfl, rfl, wellClosed_circlePath _ _⟩))
        (regionsOkFrom_nil _ _)
    | exact regionsOkFrom_append
        (regionsOkFrom_append
          (regionsOkFrom_singleton ⟨rfl, by simp only [Nat.zero_mod],
            wellClosed_starPathCmds _ _ _ _ _ (by omega)⟩)
          (regionsOkFrom_nil _ _))
        (regionsOkFrom_nil _ _)

theorem goodOut_hexagonCenter (ops : RealOps) (dif : Difficulty)
    (center size : ℚ) (palette : List String) (st : ℤ) :
    GoodOut palette ((generateHexagonCenter ops dif center size palette 0 st).1) := by
  unfold generateHexagonCenter
  dsimp only
  split_ifs <;> dsimp only <;>
    refine ⟨by simp, ?_, ?_, by simp, by intro _; simp⟩ <;>
    first
    | exact elemsOk_cons rfl (elemsOk_cons rfl (elemsOk_cons rfl elemsOk_nil))
    | exact regionsOkFrom_cons
        ⟨rfl, by simp only [Nat.zero_mod], wellClosed_circlePath _ _⟩
        (regionsOkFrom_cons ⟨rfl, rfl, wellClosed_hexPathCmds _ _ _⟩
          (regionsOkFrom_cons ⟨rfl, rfl, wellClosed_squarePath _ _⟩
            (regionsOkFrom_nil _ _)))
    | exact regionsOkFrom_cons
        ⟨rfl, by simp only [Nat.zero_mod], wellClosed_circlePath _ _⟩
        (regionsOkFrom_cons ⟨rfl, rfl, wellClosed_hexPathCmds _ _ _⟩
          (regionsOkFrom_cons ⟨rfl, rfl, wellClosed_circlePath _ _⟩
            (regionsOkFrom_nil _ _)))
    | exact regionsOkFrom_cons
        ⟨rfl, by simp only [Nat.zero_mod], wellClosed_squarePath _ _⟩
        (regionsOkFrom_cons ⟨rfl, rfl, wellClosed_hexPathCmds _ _ _⟩
          (regionsOkFrom_cons ⟨rfl, rfl, wellClosed_squarePath _ _⟩
            (regionsOkFrom_nil _ _)))
    | exact regionsOkFrom_cons
        ⟨rfl, by simp only [Nat.zero_mod], wellClosed_squarePath _ _⟩
        (regionsOkFrom_cons ⟨rfl, rfl, wellClosed_hexPathCmds _ _ _⟩
          (regionsOkFrom_cons ⟨rfl, rfl, wellClosed_circlePath _ _⟩
            (regionsOkFrom_nil _ _)))

theorem goodOut_mixedShapes (ops : RealOps) (dif : Difficulty)
    (center size : ℚ) (palette : List String) (st : ℤ) :
    GoodOut palette ((generateMixedShapes ops dif center size palette 0 st).1) := by
  unfold generateMixedShapes
  dsimp only
  refine ⟨by simp, ?_, ?_, by simp, by intro _; simp⟩
  · exact elemsOk_cons rfl (elemsOk_cons rfl (elemsOk_cons rfl elemsOk_nil))
  · exact regionsOkFrom_cons
      ⟨rfl, by simp only [Nat.zero_mod], wellClosed_squarePath _ _⟩
      (regionsOkFrom_cons ⟨rfl, rfl, rfl⟩
        (regionsOkFrom_cons ⟨rfl, rfl, rfl⟩ (regionsOkFrom_nil _ _)))

theorem goodOut_diamondPattern (ops : RealOps) (dif : Difficulty)
    (center size : ℚ) (palette : List String) (st : ℤ) :
    GoodOut palette ((generateDiamondPattern ops dif center size palette 0 st).1) := by
  unfold generateDiamondPattern
  dsimp only
  refine ⟨by simp, ?_, ?_, by simp, by intro _; simp⟩
  · exact elemsOk_cons rfl (elemsOk_cons rfl (elemsOk_cons rfl elemsOk_nil))
  · exact regionsOkFrom_cons
      ⟨rfl, by simp only [Nat.zero_mod], wellClosed_circlePath _ _⟩
      (regionsOkFrom_cons ⟨rfl, rfl, rfl⟩
        (regionsOkFrom_cons ⟨rfl, rfl, wellClosed_circlePath _ _⟩
          (regionsOkFrom_nil _ _)))

theorem goodOut_petalFlower (ops : RealOps) (dif : Difficulty)
    (center size : ℚ) (palette : List String) (st : ℤ) :
    GoodOut palette ((generatePetalFlower ops dif center size palette 0 st).1) := by
  unfold generatePetalFlower
  dsimp only
  split <;>
    refine ⟨by simp, ?_, ?_, ?_, ?_⟩ <;>
    first
    | exact elemsOk_append (elemsOk_map_range fun k => rfl) (elemsOk_cons rfl elemsOk_nil)
    | exact elemsOk_map_range fun k => rfl
    | exact regionsOkFrom_append
        (regionsOkFrom_map_range fun k hk =>
          ⟨rfl, by simp only [Nat.zero_add], wellClosed_createEllipsePath _ _ _ _ _ _⟩)
        (by simp only [List.length_map, List.length_range]
            exact regionsOkFrom_singleton
              ⟨rfl, by simp only [Nat.zero_add], wellClosed_circlePath _ _⟩)
    | exact regionsOkFrom_map_range fun k hk =>
        ⟨rfl, by simp only [Nat.zero_add], wellClosed_createEllipsePath _ _ _ _ _ _⟩
    | (simp only [List.length_append, List.length_map, List.length_range,
         List.length_singleton]
       omega)

theorem goodOut_complexStar (ops : RealOps) (dif : Difficulty)
    (center size : ℚ) (palette : List String) (st : ℤ) :
    GoodOut palette ((generateComplexStar ops dif center size palette 0 st).1) := by
  unfold generateComplexStar
  dsimp only
  split <;>
    refine ⟨by simp, ?_, ?_, ?_, ?_⟩ <;>
    first
    | exact elemsOk_append (elemsOk_map_range fun k => rfl) (elemsOk_cons rfl elemsOk_nil)
    | exact elemsOk_map_range fun k => rfl
    | exact regionsOkFrom_append
        (regionsOkFrom_map_range fun k hk =>
          ⟨rfl, by simp only [Nat.zero_add], rfl⟩)
        (by simp only [List.length_map, List.length_range]
            exact regionsOkFrom_singleton
              ⟨rfl, by simp only [Nat.zero_add], wellClosed_circlePath _ _⟩)
    | exact regionsOkFrom_map_range fun k hk =>
        ⟨rfl, by simp only [Nat.zero_add], rfl⟩
    | (simp only [List.length_append, List.length_map, List.length_range,
         List.length_singleton]
       omega)

theorem goodOut_layeredMandala (ops : RealOps) (dif : Difficulty)
    (center size : ℚ) (palette : List String) (st : ℤ) :
    GoodOut palette ((generateLayeredMandala ops dif center size palette 0 st).1) := by
  unfold generateLayeredMandala
  dsimp only
  refine ⟨by simp, ?_, ?_, by simp, by intro h; simpa using h⟩
  · refine elemsOk_map_range fun k => ?_
    dsimp only
    split <;> rfl
  · refine regionsOkFrom_map_range fun k hk => ?_
    dsimp only
    split
    · exact ⟨rfl, by simp only [Nat.zero_add], wellClosed_circlePath _ _⟩
    · exact ⟨rfl, by simp only [Nat.zero_add],
        wellClosed_starPathCmds _ _ _ _ 8 (by norm_num)⟩

theorem goodOut_geometricFlower (ops : RealOps) (dif : Difficulty)
    (center size : ℚ) (palette : List String) (st : ℤ) :
    GoodOut palette ((generateGeometricFlower ops dif center size palette 0 st).1) := by
  unfold generateGeometricFlower
  dsimp only
  split_ifs with hp <;> dsimp only
  · refine ⟨by simp, ?_, ?_, by simp, by intro _; simp⟩
    · exact elemsOk_append (elemsOk_cons rfl elemsOk_nil)
        (elemsOk_map_range fun k => rfl)
    · refine regionsOkFrom_append
        (regionsOkFrom_singleton ⟨rfl, by simp only [Nat.zero_mod, Nat.zero_add], wellClosed_circlePath _ _⟩)
        ?_
      simp only [List.length_singleton]
      refine regionsOkFrom_map_range fun k hk => ?_
      exact ⟨by simp only [Nat.zero_add], by simp only [Nat.zero_add], rfl⟩
  · refine ⟨by simp, ?_, ?_, by simp, by intro h; omega⟩
    · exact elemsOk_append elemsOk_nil
        (elemsOk_map_range fun k => rfl)
    · refine regionsOkFrom_append (regionsOkFrom_nil _ _) ?_
      refine regionsOkFrom_map_range fun k hk => ?_
      exact absurd hk (by omega)

/-! ## Master lemma for one full generation -/

theorem goodOut_dispatch (ops : RealOps) (dif : Difficulty)
    (center canvasSize : ℚ) (palette : List String) (dt : Option String)
    (st : ℤ) :
    GoodOut palette ((dispatch ops dif center canvasSize palette 0 dt st).1) := by
  unfold dispatch
  by_cases h1 : dt = some "concentric_circles"
  · rw [if_pos h1]
    exact goodOut_concentricCircles ops dif center canvasSize palette st
  rw [if_neg h1]
  by_cases h2 : dt = some "nested_squares"
  · rw [if_pos h2]
    exact goodOut_nestedSquares ops dif center canvasSize palette st
  rw [if_neg h2]
  by_cases h3 : dt = some "triangle_in_circle"
  · rw [if_pos h3]
    exact goodOut_triangleInCircle ops dif center canvasSize palette st
  rw [if_neg h3]
  by_cases h4 : dt = some "star_pattern"
  · rw [if_pos h4]
    exact goodOut_starPattern ops dif center canvasSize palette st
  rw [if_neg h4]
  by_cases h5 : dt = some "hexagon_center"
  · rw [if_pos h5]
    exact goodOut_hexagonCenter ops dif center canvasSize palette st
  rw [if_neg h5]
  by_cases h6 : dt = some "petal_flower"
  · rw [if_pos h6]
    exact goodOut_petalFlower ops dif center canvasSize palette st
  rw [if_neg h6]
  by_cases h7 : dt = some "complex_star"
  · rw [if_pos h7]
    exact goodOut_complexStar ops dif center canvasSize palette st
  rw [if_neg h7]
  by_cases h8 : dt = some "layered_mandala"
  · rw [if_pos h8]
    exact goodOut_layeredMandala ops dif center canvasSize palette st
  rw [if_neg h8]
  by_cases h9 : dt = some "geometric_flower"
  · rw [if_pos h9]
    exact goodOut_geometricFlower ops dif center canvasSize palette st
  rw [if_neg h9]
  by_cases h10 : dt = some "mixed_shapes"
  · rw [if_pos h10]
    exact goodOut_mixedShapes ops dif center canvasSize palette st
  rw [if_neg h10]
  exact goodOut_diamondPattern ops dif center canvasSize palette st

theorem goodOut_generateCore (ops : RealOps) (s : MandalaSettings) :
    GoodOut s.palette ((generateCore ops s).1) := by
  unfold generateCore
  dsimp only
  exact goodOut_dispatch ops s.difficulty _ _ s.palette _ _

theorem generate_regions_def (ops : RealOps) (s : MandalaSettings) :
    (generate ops s).regions = ((generateCore ops s).1).1 := rfl

theorem generate_colored_def (ops : RealOps) (s : MandalaSettings) :
    (generate ops s).colored = { size := s.canvasSize, elems := ((generateCore ops s).1).2 } := rfl

theorem generate_outline_def (ops : RealOps) (s : MandalaSettings) :
    (generate ops s).outline = outlineSvgOf (generate ops s).colored := rfl

/-! ## Claim theorems -/



theorem s0_regions_len_pos : 0 < (generate ops0 s0).regions.length := by decide

theorem mkId_inj9 :
    ∀ j ∈ List.range 9, ∀ k ∈ List.range 9, mkId j = mkId k → j = k := by decide

/-- C1: for every generation (any seed, canvas size, difficulty, palette of
length at least one, and any interpretation of the real-valued library
functions), the outline image is geometrically identical to the colored
image: same number of shape nodes, same ids, same boundary geometry at every
index; only fill/stroke differ, every outline fill is `"none"`, and every
stroke — all of which were the neutral `"#222"` — is recolored `"#000"`. -/
theorem generate_outline_matches_colored (ops : RealOps) (s : MandalaSettings)
    (_hp : 1 ≤ s.palette.length) : OutlineMatchesColored (generate ops s) := by
  have hstroke := (goodOut_generateCore ops s).2.1
  have hout : (generate ops s).outline.elems =
      (generate ops s).colored.elems.map outlineElem := rfl
  refine ⟨?_, ?_, ?_, ?_, ?_⟩
  · rw [hout, List.length_map]
  · intro j
    rw [hout, List.getElem?_map]
    cases (generate ops s).colored.elems[j]? <;> rfl
  · intro j
    rw [hout, List.getElem?_map]
    cases (generate ops s).colored.elems[j]? <;> rfl
  · intro e he
    rw [hout] at he
    obtain ⟨e2, he2, rfl⟩ := List.mem_map.mp he
    have h2 : e2.stroke = "#222" := hstroke e2 he2
    exact ⟨rfl, by simp [outlineElem, h2]⟩
  · exact fun e he => hstroke e he

/-- C1 witness at concrete settings. -/
theorem generate_outline_matches_colored_witness :
    1 ≤ s0.palette.length ∧ OutlineMatchesColored (generate ops0 s0) :=
  ⟨by decide, generate_outline_matches_colored ops0 s0 (by decide)⟩

/-- C2: the generation result is a function of (seed, canvasSize,
difficulty, palette) only: two settings agreeing on those four fields (for
the same interpretation of the real-valued library functions) produce
identical region lists, colored images and outline images, regardless of
every other settings field and with a fresh random source each time. -/
theorem generate_deterministic (ops : RealOps) (s1 s2 : MandalaSettings)
    (hseed : s1.seed = s2.seed) (hsize : s1.canvasSize = s2.canvasSize)
    (hdif : s1.difficulty = s2.difficulty) (hpal : s1.palette = s2.palette) :
    generate ops s1 = generate ops s2 := by
  cases s1
  cases s2
  dsimp only at hseed hsize hdif hpal
  subst hseed
  subst hsize
  subst hdif
  subst hpal
  rfl

/-- C2 witness: two settings differing in colorCount, radialSlices, rings and
shapeComplexity but agreeing on the four generation inputs give equal
results. -/
theorem generate_deterministic_witness :
    s0.seed = s0var.seed ∧ s0.canvasSize = s0var.canvasSize ∧
    s0.difficulty = s0var.difficulty ∧ s0.palette = s0var.palette ∧
    generate ops0 s0 = generate ops0 s0var :=
  ⟨rfl, rfl, rfl, rfl, generate_deterministic ops0 s0 s0var rfl rfl rfl rfl⟩

/-- C3 counterexample: on settings with `canvasSize = 0` and an empty
palette — where the claim requires a failure with `InvalidArgument` — the
generator completes normally and returns a full result with two regions and
two shape nodes (the code contains no validation and no failure path; the
region colors are the JS `undefined`). -/
theorem generate_no_failure_counterexample :
    sBad.canvasSize ≤ 0 ∧ sBad.palette = [] ∧
    (generate ops0 sBad).regions.length = 2 ∧
    (generate ops0 sBad).colored.elems.length = 2 ∧
    (generate ops0 sBad).regions.map RegionSpec.color = [none, none] := by decide

/-- C3 amended: generation never fails: it performs no input validation and
always returns a complete, self-consistent result (one shape node per
region) for every input, including non-positive canvas sizes and empty
palettes; the eligible design-type set of every difficulty is nonempty. -/
theorem generate_never_fails (ops : RealOps) (s : MandalaSettings) :
    designTypes s.difficulty ≠ [] ∧
    (generate ops s).colored.elems.length = (generate ops s).regions.length := by
  refine ⟨?_, (goodOut_generateCore ops s).1⟩
  cases hd : s.difficulty <;> simp [designTypes]

/-- C4 counterexample: `choice` on the empty array — where the claim
requires a failure with `InvalidArgument` — returns normally: the index is
`0`, the access is out of bounds, and the JS `undefined` (modelled `none`)
is returned together with the advanced RNG state. -/
theorem choice_empty_counterexample :
    (choice ([] : List String) (hashCode "x")).1 = none ∧
    (choice ([] : List String) (hashCode "x")).2 = 232297 := by decide

/-- C4 amended: `choice` on a singleton `[x]` always returns `x`; `choice`
on the empty array does not fail — it returns the JS `undefined`
(modelled `none`). -/
theorem choice_amended {α : Type} (x : α) (st : ℤ) :
    (choice [x] st).1 = some x ∧ (choice ([] : List α) st).1 = none := by
  obtain ⟨h0, h1⟩ := random_val_bounds st
  constructor
  · show jsGetInt [x] (randomInt 0 (([x].length : ℤ) - 1) st).1 = some x
    have hz : (randomInt 0 (([x].length : ℤ) - 1) st).1 = 0 := by
      unfold randomInt
      dsimp only
      have hc : ((([x].length : ℤ) - 1 : ℤ) : ℚ) - ((0 : ℤ) : ℚ) + 1 = 1 := by
        norm_num
      rw [hc, mul_one, add_zero, Int.floor_eq_zero_iff]
      exact Set.mem_Ico.mpr ⟨h0, h1⟩
    rw [hz]
    rfl
  · show jsGetInt ([] : List α)
      (randomInt 0 ((([] : List α).length : ℤ) - 1) st).1 = none
    have hz : (randomInt 0 ((([] : List α).length : ℤ) - 1) st).1 = 0 := by
      unfold randomInt
      dsimp only
      have hc : (((([] : List α).length : ℤ) - 1 : ℤ) : ℚ) - ((0 : ℤ) : ℚ) + 1 = 0 := by
        norm_num
      rw [hc, mul_zero, Int.floor_zero, add_zero]
    rw [hz]
    rfl

/-- C5 counterexample: `concentric_circles` is eligible at intermediate but
not at advanced, so the eligible sets are not non-decreasing by inclusion
and advanced does not unlock the full primitive set. -/
theorem difficulty_monotonicity_counterexample :
    "concentric_circles" ∈ designTypes Difficulty.intermediate ∧
    "concentric_circles" ∉ designTypes Difficulty.advanced := by decide

/-- C5 amended: the beginner set is included in the intermediate set, but
the advanced set is the four complex patterns only and is disjoint from the
intermediate set (no tier-spanning inclusion into advanced). -/
theorem difficulty_sets_amended :
    ((designTypes Difficulty.beginner).all
      (fun x => (designTypes Difficulty.intermediate).contains x)) = true ∧
    designTypes Difficulty.advanced =
      ["petal_flower", "complex_star", "layered_mandala", "geometric_flower"] ∧
    ((designTypes Difficulty.intermediate).all
      (fun x => !((designTypes Difficulty.advanced).contains x))) = true := by decide

/-- C6: the random source equals its reference definition: seeding folds
`hash*31 + charCode` over the character codes under 32-bit signed
wraparound and takes the absolute value, and every `random` call updates
the state to `(state*9301 + 49297) % 233280` and returns `state/233280`,
which lies in `[0, 1)`. -/
theorem seededRandom_reference :
    (∀ s : String,
      hashCode s =
        |List.foldl (fun h c => toInt32 (h * 31 + c)) 0 (charCodes s)|) ∧
    (∀ st : ℤ,
      (random st).2 = (st * 9301 + 49297) % 233280 ∧
      (random st).1 = (((st * 9301 + 49297) % 233280 : ℤ) : ℚ) / 233280 ∧
      0 ≤ (random st).1 ∧ (random st).1 < 1) := by
  constructor
  · intro s
    unfold hashCode
    have hfun : hashStep = fun h c => toInt32 (h * 31 + c) := by
      funext h c
      exact hashStep_eq_ref h c
    rw [hfun]
  · intro st
    exact ⟨rfl, rfl, (random_val_bounds st).1, (random_val_bounds st).2⟩

/-- C7: for every generation with a nonempty palette, the `k`-th region
appended (counting from 0) has color `palette[k % palette.length]`, for
every selectable primitive — also when a primitive emits more regions than
the palette has entries. -/
theorem generate_palette_cycling (ops : RealOps) (s : MandalaSettings)
    (_hp : 1 ≤ s.palette.length) :
    ∀ j (h : j < (generate ops s).regions.length),
      ((generate ops s).regions[j]).color =
        s.palette[(j % s.palette.length)]? := by
  intro j h
  have hc := ((goodOut_generateCore ops s).2.2.1 j h).2.1
  simpa only [Nat.zero_add, jsIdx] using hc

/-- C7 witness: the first region of a concrete generation has the first
palette color. -/
theorem generate_palette_cycling_witness :
    1 ≤ s0.palette.length ∧
    ((generate ops0 s0).regions.get ⟨0, s0_regions_len_pos⟩).color =
      s0.palette[(0 % s0.palette.length)]? :=
  ⟨by decide, generate_palette_cycling ops0 s0 (by decide) 0 s0_regions_len_pos⟩

/-- C8: in every generation the `j`-th region drawn has id `region-j`, so
ids are unique and strictly increasing in draw order (id order equals paint
order). -/
theorem generate_region_ids (ops : RealOps) (s : MandalaSettings) :
    (∀ j (h : j < (generate ops s).regions.length),
      ((generate ops s).regions[j]).id = mkId j) ∧
    (∀ j k (hj : j < (generate ops s).regions.length)
      (hk : k < (generate ops s).regions.length),
      j ≠ k →
      ((generate ops s).regions[j]).id ≠ ((generate ops s).regions[k]).id) := by
  have hok := (goodOut_generateCore ops s).2.2.1
  have hle9 := (goodOut_generateCore ops s).2.2.2.1
  have hlen : (generate ops s).regions.length =
      ((generateCore ops s).1).1.length := rfl
  have hid : ∀ j (h : j < (generate ops s).regions.length),
      ((generate ops s).regions[j]).id = mkId j := by
    intro j h
    have := (hok j h).1
    simpa only [Nat.zero_add] using this
  refine ⟨hid, ?_⟩
  intro j k hj hk hne heq
  rw [hid j hj, hid k hk] at heq
  exact hne (mkId_inj9 j (List.mem_range.mpr (by omega)) k
    (List.mem_range.mpr (by omega)) heq)

/-- C8 witness: the first region of a concrete generation has id
`region-0`. -/
theorem generate_region_ids_witness :
    ((generate ops0 s0).regions.get ⟨0, s0_regions_len_pos⟩).id = mkId 0 :=
  (generate_region_ids ops0 s0).1 0 s0_regions_len_pos

/-- C9: every region's boundary path of every generation is explicitly
closed (single `M`, then `L`/`A` commands, final `Z`) and therefore its
first and last effective points coincide. -/
theorem generate_regions_closed (ops : RealOps) (s : MandalaSettings) :
    ∀ r ∈ (generate ops s).regions,
      wellClosed r.path = true ∧ firstPoint r.path = effEnd r.path ∧
      firstPoint r.path ≠ none := by
  intro r hr
  obtain ⟨⟨j, hj⟩, rfl⟩ := List.mem_iff_get.mp hr
  have hw := ((goodOut_generateCore ops s).2.2.1 j hj).2.2
  obtain ⟨he, hn⟩ := firstPoint_eq_effEnd_of_wellClosed hw
  exact ⟨hw, he, hn⟩

/-- C9 witness: the first region generated from `s0` is the background
circle `r0val`, and its path is closed with coinciding endpoints. -/
theorem generate_regions_closed_witness :
    wellClosed r0val.path = true ∧ firstPoint r0val.path = effEnd r0val.path ∧
    firstPoint r0val.path ≠ none :=
  generate_regions_closed ops0 s0 r0val (by decide)

/-- C10: every generation with a nonempty palette yields a nonempty region
list — every selectable primitive appends at least one region. -/
theorem generate_regions_nonempty (ops : RealOps) (s : MandalaSettings)
    (hp : 1 ≤ s.palette.length) : 1 ≤ (generate ops s).regions.length :=
  (goodOut_generateCore ops s).2.2.2.2 hp

/-- C10 witness. -/
theorem generate_regions_nonempty_witness :
    1 ≤ s0.palette.length ∧ 1 ≤ (generate ops0 s0).regions.length :=
  ⟨by decide, generate_regions_nonempty ops0 s0 (by decide)⟩

end Mandala
